import Mathlib

/-!
Verification of the PlanPulse goal/daily-task tracker (src/main.py).

The Python data model is embedded shallowly:

* `Datetime` mirrors a Python `datetime.datetime` value (proleptic Gregorian
  calendar components plus microseconds).  Where the source compares or
  subtracts datetimes we work with the value's total-microsecond count
  `Datetime.toMicros`, which is how Python's own comparison and subtraction
  of `datetime` values behave (via `date.toordinal`).
* `datetime.now()` is an external input, so every time-dependent operation
  takes the current instant as an explicit parameter.
* Python `float` results (`completion_rate`) are modelled as exact rationals.
* The JSON file on disk is modelled as an `Option SaveData` value: `json.dump`
  followed by `json.load` is the identity on the dictionaries the code builds,
  so the durable medium carries the structured dictionaries themselves.
* `list.remove` raising `ValueError` is modelled by `Except DeleteError`.
-/

/-- A `datetime.datetime` value: calendar components, all natural numbers. -/
structure Datetime where
  year : Nat
  month : Nat
  day : Nat
  hour : Nat
  minute : Nat
  second : Nat
  microsecond : Nat
deriving DecidableEq

/-- The ranges Python's `datetime` constructor enforces. -/
def Datetime.valid (t : Datetime) : Prop :=
  1 ≤ t.year ∧ t.year ≤ 9999 ∧ 1 ≤ t.month ∧ t.month ≤ 12 ∧
    1 ≤ t.day ∧ t.day ≤ 31 ∧ t.hour ≤ 23 ∧ t.minute ≤ 59 ∧
    t.second ≤ 59 ∧ t.microsecond ≤ 999999

instance (t : Datetime) : Decidable t.valid := by
  unfold Datetime.valid; infer_instance

/-- Cumulative day counts before each month (index 1..12) in a non-leap year. -/
def daysBeforeMonth (m : Nat) : Nat :=
  [0, 0, 31, 59, 90, 120, 151, 181, 212, 243, 273, 304, 334].getD m 0

/-- Gregorian leap-year test, as in Python's `calendar.isleap`. -/
def isLeap (y : Nat) : Bool :=
  y % 4 == 0 && (y % 100 != 0 || y % 400 == 0)

/-- `date.toordinal`: day number of year/month/day, with 0001-01-01 as day 1. -/
def toordinal (y m d : Nat) : Nat :=
  (y - 1) * 365 + (y - 1) / 4 - (y - 1) / 100 + (y - 1) / 400 +
    daysBeforeMonth m + (if 2 < m ∧ isLeap y then 1 else 0) + d

/-- Total microseconds of a datetime, the quantity Python's `datetime`
comparison and subtraction operate on. -/
def Datetime.toMicros (t : Datetime) : Int :=
  ((toordinal t.year t.month t.day * 86400 + t.hour * 3600 + t.minute * 60 +
      t.second : Nat) : Int) * 1000000 + (t.microsecond : Int)

/-- Microseconds in one day: the `timedelta(days=1)` step. -/
def dayMicros : Int := 86400000000

/-- `timedelta.days` of a duration given in microseconds: Python normalises a
`timedelta` with floor division, so `.days` floors towards minus infinity. -/
def timedeltaDays (x : Int) : Int := Int.fdiv x dayMicros

/-- The `Goal` entity of src/main.py. -/
structure Goal where
  name : String
  deadline_days : Int
  created_at : Datetime
  completed : Bool
  failed : Bool
deriving DecidableEq

/-- `Goal.__init__` with `created_at` defaulted to the current time `now` and
the flags left at their default `False`. -/
def Goal.construct (name : String) (deadline_days : Int) (now : Datetime) : Goal :=
  { name := name, deadline_days := deadline_days, created_at := now,
    completed := false, failed := false }

/-- `Goal.deadline_date` (`created_at + timedelta(days=deadline_days)`), kept
as its total-microsecond count since the source only ever compares it with or
subtracts it from another datetime. -/
def Goal.deadline_date (g : Goal) : Int :=
  g.created_at.toMicros + g.deadline_days * dayMicros

/-- `Goal.days_left`: `(deadline_date - datetime.now()).days`, with the current
instant `now` given in microseconds. -/
def Goal.days_left (g : Goal) (now : Int) : Int :=
  timedeltaDays (g.deadline_date - now)

/-- `Goal.check_failed`, with `datetime.now()` passed in as microseconds.
Returns the boolean result paired with the updated goal. -/
def Goal.check_failed (g : Goal) (now : Int) : Bool × Goal :=
  if g.completed = false ∧ g.failed = false then
    if g.deadline_date < now then (true, { g with failed := true })
    else (false, g)
  else (false, g)

/-- `Goal.complete`: sets `completed` unless the goal is already failed. -/
def Goal.complete (g : Goal) : Goal :=
  if g.failed = false then { g with completed := true } else g

/-- One mutation step in a goal's life: a `complete()` call or a
`check_failed()` call at some instant. -/
inductive GoalOp where
  | complete : GoalOp
  | checkFailed (now : Int) : GoalOp
deriving DecidableEq

/-- Apply one operation to a goal. -/
def applyOp (g : Goal) : GoalOp → Goal
  | GoalOp.complete => g.complete
  | GoalOp.checkFailed now => (g.check_failed now).2

/-- Run a sequence of `complete()` / `check_failed()` calls. -/
def runOps (g : Goal) (ops : List GoalOp) : Goal :=
  ops.foldl applyOp g

/-- The `DailyTask` entity of src/main.py.  Completed dates are the ISO date
strings the source stores (`str(datetime.now().date())`). -/
structure DailyTask where
  name : String
  days_of_week : List Int
  completed_dates : List String
deriving DecidableEq

/-- `DailyTask.is_active_today`, with today's weekday passed in. -/
def DailyTask.is_active_today (t : DailyTask) (todayWeekday : Int) : Bool :=
  decide (todayWeekday ∈ t.days_of_week)

/-- `DailyTask.is_completed_today`, with today's date string passed in. -/
def DailyTask.is_completed_today (t : DailyTask) (todayStr : String) : Bool :=
  decide (todayStr ∈ t.completed_dates)

/-- `DailyTask.complete_today`, with today's date string and weekday passed
in: appends iff the date is not yet logged and the task is active today. -/
def DailyTask.complete_today (t : DailyTask) (todayStr : String)
    (todayWeekday : Int) : DailyTask :=
  if todayStr ∉ t.completed_dates ∧ t.is_active_today todayWeekday = true then
    { t with completed_dates := t.completed_dates ++ [todayStr] }
  else t

/-- `DailyTask.completion_rate` (Python float modelled as an exact rational). -/
def DailyTask.completion_rate (t : DailyTask) (weeks : Nat) : ℚ :=
  let possible_days := t.days_of_week.length * weeks
  if possible_days = 0 then 0
  else ((t.completed_dates.length : ℚ) / (possible_days : ℚ)) * 100

/-- The dictionary `Goal.to_dict` builds; `created_at` is serialised to its
ISO string, modelled as the list of character codes. -/
structure GoalDict where
  name : String
  deadline_days : Int
  created_at : List Nat
  completed : Bool
  failed : Bool
deriving DecidableEq

/-- The dictionary `DailyTask.to_dict` builds. -/
structure TaskDict where
  name : String
  days_of_week : List Int
  completed_dates : List String
deriving DecidableEq

/-- Big-endian fixed-width decimal digits of `n` (zero padded to width `k`),
as `"%04d" % y`-style formatting produces. -/
def digitsBE : Nat → Nat → List Nat
  | 0, _ => []
  | k + 1, n => digitsBE k (n / 10) ++ [n % 10]

/-- Zero-padded decimal rendering of `n` to `k` character codes. -/
def encNum (k n : Nat) : List Nat :=
  (digitsBE k n).map (fun d => d + 48)

/-- `datetime.isoformat()`: `YYYY-MM-DDTHH:MM:SS`, plus `.ffffff` when the
microsecond field is nonzero, as a list of character codes
(45 is the hyphen, 84 is T, 58 is the colon, 46 is the dot). -/
def Datetime.isoformat (t : Datetime) : List Nat :=
  encNum 4 t.year ++ 45 :: encNum 2 t.month ++ 45 :: encNum 2 t.day ++
    84 :: encNum 2 t.hour ++ 58 :: encNum 2 t.minute ++ 58 :: encNum 2 t.second ++
    (if t.microsecond = 0 then [] else 46 :: encNum 6 t.microsecond)

/-- `datetime.fromisoformat` on the shapes `isoformat` emits: positional
parse of the fixed-width fields, microseconds 0 when the fraction is absent.
Inputs of any other shape are not produced by this program; they map to the
zero datetime (Python would raise `ValueError`). -/
def Datetime.fromisoformat (s : List Nat) : Datetime :=
  match s with
  | y1 :: y2 :: y3 :: y4 :: _ :: b1 :: b2 :: _ :: d1 :: d2 :: _ ::
      h1 :: h2 :: _ :: f1 :: f2 :: _ :: s1 :: s2 :: rest =>
    { year := (y1 - 48) * 1000 + (y2 - 48) * 100 + (y3 - 48) * 10 + (y4 - 48)
      month := (b1 - 48) * 10 + (b2 - 48)
      day := (d1 - 48) * 10 + (d2 - 48)
      hour := (h1 - 48) * 10 + (h2 - 48)
      minute := (f1 - 48) * 10 + (f2 - 48)
      second := (s1 - 48) * 10 + (s2 - 48)
      microsecond :=
        match rest with
        | _ :: u1 :: u2 :: u3 :: u4 :: u5 :: u6 :: _ =>
          (u1 - 48) * 100000 + (u2 - 48) * 10000 + (u3 - 48) * 1000 +
            (u4 - 48) * 100 + (u5 - 48) * 10 + (u6 - 48)
        | _ => 0 }
  | _ => { year := 0, month := 0, day := 0, hour := 0, minute := 0,
           second := 0, microsecond := 0 }

/-- `Goal.to_dict`. -/
def Goal.to_dict (g : Goal) : GoalDict :=
  { name := g.name, deadline_days := g.deadline_days,
    created_at := g.created_at.isoformat,
    completed := g.completed, failed := g.failed }

/-- `Goal.from_dict`. -/
def Goal.from_dict (d : GoalDict) : Goal :=
  { name := d.name, deadline_days := d.deadline_days,
    created_at := Datetime.fromisoformat d.created_at,
    completed := d.completed, failed := d.failed }

/-- `DailyTask.to_dict`. -/
def DailyTask.to_dict (t : DailyTask) : TaskDict :=
  { name := t.name, days_of_week := t.days_of_week,
    completed_dates := t.completed_dates }

/-- `DailyTask.from_dict`. -/
def DailyTask.from_dict (d : TaskDict) : DailyTask :=
  { name := d.name, days_of_week := d.days_of_week,
    completed_dates := d.completed_dates }

/-- The parsed content of `goals_data.json`. -/
structure SaveData where
  goals : List GoalDict
  daily_tasks : List TaskDict
deriving DecidableEq

/-- `DataManager.save_data`: the snapshot value written to disk. -/
def DataManager.save_data (goals : List Goal) (daily_tasks : List DailyTask) :
    SaveData :=
  { goals := goals.map Goal.to_dict,
    daily_tasks := daily_tasks.map DailyTask.to_dict }

/-- `DataManager.load_data`: empty collections when the file is absent,
otherwise `from_dict` over both lists. -/
def DataManager.load_data (file : Option SaveData) :
    List Goal × List DailyTask :=
  match file with
  | none => ([], [])
  | some d => (d.goals.map Goal.from_dict, d.daily_tasks.map DailyTask.from_dict)

/-- A `GoalManager` together with the durable file it writes: the in-memory
collections plus the disk snapshot (none when no file exists yet). -/
structure AppState where
  goals : List Goal
  daily_tasks : List DailyTask
  disk : Option SaveData
deriving DecidableEq

/-- `GoalManager.save_data`: flush the current collections to disk. -/
def saveState (s : AppState) : AppState :=
  { s with disk := some (DataManager.save_data s.goals s.daily_tasks) }

/-- `GoalManager.add_goal`: construct, append, persist - no validation. -/
def GoalManager.add_goal (s : AppState) (name : String) (deadline_days : Int)
    (now : Datetime) : AppState :=
  saveState { s with goals := s.goals ++ [Goal.construct name deadline_days now] }

/-- The error `list.remove` raises when the element is absent (Python's
`ValueError`; the spec calls this outcome `NotFound`). -/
inductive DeleteError where
  | notFound : DeleteError
deriving DecidableEq

/-- Python `list.remove`: delete the first occurrence, or report failure. -/
def removeFirst : List Goal → Goal → Option (List Goal)
  | [], _ => none
  | x :: xs, g =>
    if x = g then some xs else (removeFirst xs g).map (fun ys => x :: ys)

/-- `GoalManager.delete_goal`: `self.goals.remove(goal)` then persist; the
`ValueError` from `remove` propagates before any save happens. -/
def GoalManager.delete_goal (s : AppState) (g : Goal) :
    Except DeleteError AppState :=
  match removeFirst s.goals g with
  | some gs => Except.ok (saveState { s with goals := gs })
  | none => Except.error DeleteError.notFound

/-- The dictionary `GoalManager.get_goals_stats` returns (`completion_rate`
is a Python float, modelled as an exact rational). -/
structure GoalsStats where
  total : Nat
  completed : Nat
  failed : Nat
  in_progress : Int
  completion_rate : ℚ
deriving DecidableEq

/-- `GoalManager.get_goals_stats`. -/
def GoalManager.get_goals_stats (goals : List Goal) : GoalsStats :=
  let total := goals.length
  let completed := (goals.filter (fun g => g.completed)).length
  let failed := (goals.filter (fun g => g.failed)).length
  { total := total, completed := completed, failed := failed,
    in_progress := (total : Int) - (completed : Int) - (failed : Int),
    completion_rate :=
      if 0 < total then ((completed : ℚ) / (total : ℚ)) * 100 else 0 }

/-! ### Goal lifecycle lemmas -/

lemma applyOp_inv (g : Goal) (op : GoalOp)
    (h : ¬(g.completed = true ∧ g.failed = true)) :
    ¬((applyOp g op).completed = true ∧ (applyOp g op).failed = true) := by
  cases op with
  | complete =>
    simp only [applyOp, Goal.complete]
    split_ifs with hf
    · simp [hf]
    · exact h
  | checkFailed now =>
    simp only [applyOp, Goal.check_failed]
    split_ifs with h1 h2
    · simp [h1.1]
    · exact h
    · exact h

lemma runOps_inv (ops : List GoalOp) (g : Goal)
    (h : ¬(g.completed = true ∧ g.failed = true)) :
    ¬((runOps g ops).completed = true ∧ (runOps g ops).failed = true) := by
  induction ops generalizing g with
  | nil => exact h
  | cons op rest ih => exact ih (applyOp g op) (applyOp_inv g op h)

lemma applyOp_failed_mono (g : Goal) (op : GoalOp) (h : g.failed = true) :
    (applyOp g op).failed = true := by
  cases op <;> simp only [applyOp, Goal.complete, Goal.check_failed] <;>
    split_ifs <;> simp_all

lemma runOps_failed_mono (ops : List GoalOp) (g : Goal) (h : g.failed = true) :
    (runOps g ops).failed = true := by
  induction ops generalizing g with
  | nil => exact h
  | cons op rest ih => exact ih (applyOp g op) (applyOp_failed_mono g op h)

/-- Claim C1: starting from `construct(name, deadlineDays)` (both flags
false), no sequence of `complete()` / `check_failed()` calls ever makes
`completed` and `failed` both true; on a failed goal `complete()` is a no-op
leaving `completed = false`; and once `failed` is true no later operation
sequence reverts it. -/
theorem goal_lifecycle_invariant (name : String) (dd : Int) (t : Datetime)
    (ops : List GoalOp) :
    ¬((runOps (Goal.construct name dd t) ops).completed = true ∧
        (runOps (Goal.construct name dd t) ops).failed = true) ∧
    ((runOps (Goal.construct name dd t) ops).failed = true →
      Goal.complete (runOps (Goal.construct name dd t) ops) =
          runOps (Goal.construct name dd t) ops ∧
        (runOps (Goal.construct name dd t) ops).completed = false) ∧
    ((runOps (Goal.construct name dd t) ops).failed = true →
      ∀ more : List GoalOp,
        (runOps (runOps (Goal.construct name dd t) ops) more).failed = true) := by
  have hinv := runOps_inv ops (Goal.construct name dd t) (by simp [Goal.construct])
  refine ⟨hinv, fun hf => ⟨?_, ?_⟩, fun hf more => runOps_failed_mono more _ hf⟩
  · simp [Goal.complete, hf]
  · cases hc : (runOps (Goal.construct name dd t) ops).completed with
    | false => rfl
    | true => exact absurd ⟨hc, hf⟩ hinv

theorem goal_lifecycle_invariant_witness :
    (runOps (Goal.construct "trip" 0 ⟨1970, 1, 1, 0, 0, 0, 0⟩)
        [GoalOp.checkFailed
          (Datetime.toMicros ⟨1970, 1, 1, 0, 0, 0, 0⟩ + 1)]).failed = true ∧
    ¬((runOps (Goal.construct "trip" 0 ⟨1970, 1, 1, 0, 0, 0, 0⟩)
        [GoalOp.checkFailed
          (Datetime.toMicros ⟨1970, 1, 1, 0, 0, 0, 0⟩ + 1)]).completed = true ∧
      (runOps (Goal.construct "trip" 0 ⟨1970, 1, 1, 0, 0, 0, 0⟩)
        [GoalOp.checkFailed
          (Datetime.toMicros ⟨1970, 1, 1, 0, 0, 0, 0⟩ + 1)]).failed = true) ∧
    (runOps
        (runOps (Goal.construct "trip" 0 ⟨1970, 1, 1, 0, 0, 0, 0⟩)
          [GoalOp.checkFailed
            (Datetime.toMicros ⟨1970, 1, 1, 0, 0, 0, 0⟩ + 1)])
        [GoalOp.complete]).failed = true := by
  have h := goal_lifecycle_invariant "trip" 0 ⟨1970, 1, 1, 0, 0, 0, 0⟩
    [GoalOp.checkFailed (Datetime.toMicros ⟨1970, 1, 1, 0, 0, 0, 0⟩ + 1)]
  have hf : (runOps (Goal.construct "trip" 0 ⟨1970, 1, 1, 0, 0, 0, 0⟩)
      [GoalOp.checkFailed
        (Datetime.toMicros ⟨1970, 1, 1, 0, 0, 0, 0⟩ + 1)]).failed = true := by
    decide
  exact ⟨hf, h.1, h.2.2 hf [GoalOp.complete]⟩

/-- Claim C2: `check_failed(now)` returns true and sets `failed` iff the goal
is neither completed nor failed and `now` is strictly after the deadline;
otherwise it returns false and changes nothing.  After a true result every
later call returns false and leaves the goal (with `failed = true`)
unchanged. -/
theorem check_failed_spec (g : Goal) (now : Int) :
    ((g.check_failed now).1 = true ↔
      g.completed = false ∧ g.failed = false ∧ g.deadline_date < now) ∧
    ((g.check_failed now).1 = true →
      (g.check_failed now).2 = { g with failed := true }) ∧
    ((g.check_failed now).1 = false → (g.check_failed now).2 = g) ∧
    ((g.check_failed now).1 = true →
      (g.check_failed now).2.failed = true ∧
      ∀ later : Int,
        (g.check_failed now).2.check_failed later =
          (false, (g.check_failed now).2)) := by
  cases hc : g.completed with
  | true =>
    have e : g.check_failed now = (false, g) := by
      simp [Goal.check_failed, hc]
    rw [e]
    exact ⟨by simp [hc], fun h => by simp at h, fun _ => rfl,
      fun h => by simp at h⟩
  | false =>
    cases hf : g.failed with
    | true =>
      have e : g.check_failed now = (false, g) := by
        simp [Goal.check_failed, hf]
      rw [e]
      exact ⟨by simp [hf], fun h => by simp at h, fun _ => rfl,
        fun h => by simp at h⟩
    | false =>
      by_cases hd : g.deadline_date < now
      · have e : g.check_failed now = (true, { g with failed := true }) := by
          simp [Goal.check_failed, hc, hf, hd]
        rw [e]
        refine ⟨by simp [hc, hf, hd], fun _ => by simp [hc], fun h => by simp at h,
          fun _ => ⟨rfl, fun later => ?_⟩⟩
        simp [Goal.check_failed]
      · have e : g.check_failed now = (false, g) := by
          simp [Goal.check_failed, hd]
        rw [e]
        exact ⟨by simp [hd], fun h => by simp at h, fun _ => rfl,
          fun h => by simp at h⟩

theorem check_failed_spec_witness :
    (Goal.check_failed (Goal.construct "report" 0 ⟨1970, 1, 1, 0, 0, 0, 0⟩)
        (Datetime.toMicros ⟨1970, 1, 1, 0, 0, 0, 0⟩ + 1)).1 = true ∧
    (Goal.check_failed (Goal.construct "report" 0 ⟨1970, 1, 1, 0, 0, 0, 0⟩)
        (Datetime.toMicros ⟨1970, 1, 1, 0, 0, 0, 0⟩ + 1)).2.failed = true ∧
    (Goal.check_failed (Goal.construct "report" 0 ⟨1970, 1, 1, 0, 0, 0, 0⟩)
          (Datetime.toMicros ⟨1970, 1, 1, 0, 0, 0, 0⟩ + 1)).2.check_failed
        (Datetime.toMicros ⟨1970, 1, 1, 0, 0, 0, 0⟩ + 2) =
      (false,
        (Goal.check_failed (Goal.construct "report" 0 ⟨1970, 1, 1, 0, 0, 0, 0⟩)
          (Datetime.toMicros ⟨1970, 1, 1, 0, 0, 0, 0⟩ + 1)).2) := by
  have h := check_failed_spec
    (Goal.construct "report" 0 ⟨1970, 1, 1, 0, 0, 0, 0⟩)
    (Datetime.toMicros ⟨1970, 1, 1, 0, 0, 0, 0⟩ + 1)
  have h1 : (Goal.check_failed (Goal.construct "report" 0 ⟨1970, 1, 1, 0, 0, 0, 0⟩)
      (Datetime.toMicros ⟨1970, 1, 1, 0, 0, 0, 0⟩ + 1)).1 = true :=
    h.1.mpr ⟨rfl, rfl, by decide⟩
  exact ⟨h1, (h.2.2.2 h1).1, (h.2.2.2 h1).2 _⟩

/-- Claim C9: immediately after construction (the current time `t` plus an
elapsed instant `eps` of less than one day before the read), the flags are
false and `days_left` is `deadline_days` (when read at the very creation
instant) or `deadline_days - 1` (once any time has elapsed). -/
theorem construct_flags_days_left (name : String) (dd : Int) (t : Datetime)
    (eps : Int) (h0 : 0 ≤ eps) (h1 : eps < dayMicros) :
    (Goal.construct name dd t).completed = false ∧
    (Goal.construct name dd t).failed = false ∧
    ((Goal.construct name dd t).days_left (t.toMicros + eps) = dd ∨
      (Goal.construct name dd t).days_left (t.toMicros + eps) = dd - 1) := by
  refine ⟨rfl, rfl, ?_⟩
  have hday : (0 : Int) < dayMicros := by norm_num [dayMicros]
  simp only [Goal.days_left, Goal.deadline_date, Goal.construct, timedeltaDays]
  rw [Int.fdiv_eq_ediv _ (le_of_lt hday)]
  have harg : t.toMicros + dd * dayMicros - (t.toMicros + eps) =
      dd * dayMicros - eps := by ring
  rw [harg]
  rcases eq_or_lt_of_le h0 with h | h
  · left
    rw [← h, sub_zero, mul_comm,
      Int.mul_ediv_cancel_left _ (ne_of_gt hday)]
  · right
    have hsplit : dd * dayMicros - eps =
        (dayMicros - eps) + dayMicros * (dd - 1) := by ring
    rw [hsplit, Int.add_mul_ediv_left _ _ (ne_of_gt hday),
      Int.ediv_eq_zero_of_lt (by omega) (by omega)]
    omega

theorem construct_flags_days_left_witness :
    0 ≤ (0 : Int) ∧ (0 : Int) < dayMicros ∧
    ((Goal.construct "run" 5 ⟨2024, 1, 1, 0, 0, 0, 0⟩).completed = false ∧
      (Goal.construct "run" 5 ⟨2024, 1, 1, 0, 0, 0, 0⟩).failed = false ∧
      ((Goal.construct "run" 5 ⟨2024, 1, 1, 0, 0, 0, 0⟩).days_left
          (Datetime.toMicros ⟨2024, 1, 1, 0, 0, 0, 0⟩ + 0) = 5 ∨
        (Goal.construct "run" 5 ⟨2024, 1, 1, 0, 0, 0, 0⟩).days_left
          (Datetime.toMicros ⟨2024, 1, 1, 0, 0, 0, 0⟩ + 0) = 5 - 1)) :=
  ⟨by decide, by decide,
    construct_flags_days_left "run" 5 ⟨2024, 1, 1, 0, 0, 0, 0⟩ 0
      (by decide) (by decide)⟩

lemma complete_today_of_mem (t : DailyTask) (s : String) (wd : Int)
    (h : s ∈ t.completed_dates) : t.complete_today s wd = t := by
  unfold DailyTask.complete_today
  rw [if_neg]
  intro hcontra
  exact hcontra.1 h

/-- Claim C3: `complete_today` appends today's date string iff today's
weekday is scheduled and the string is not yet logged, and is otherwise a
no-op; two calls on the same day leave exactly one entry for that day, and a
log with at most one entry for a date keeps at most one entry for it. -/
theorem complete_today_spec (t : DailyTask) (todayStr : String)
    (wd : Int) :
    ((wd ∈ t.days_of_week ∧ todayStr ∉ t.completed_dates) →
      (t.complete_today todayStr wd).completed_dates =
        t.completed_dates ++ [todayStr]) ∧
    (¬(wd ∈ t.days_of_week ∧ todayStr ∉ t.completed_dates) →
      t.complete_today todayStr wd = t) ∧
    ((wd ∈ t.days_of_week ∧ todayStr ∉ t.completed_dates) →
      ((t.complete_today todayStr wd).complete_today todayStr
          wd).completed_dates.count todayStr = 1) ∧
    (t.completed_dates.count todayStr ≤ 1 →
      (t.complete_today todayStr wd).completed_dates.count todayStr ≤ 1) := by
  refine ⟨fun h => ?_, fun h => ?_, fun h => ?_, fun h => ?_⟩
  · simp [DailyTask.complete_today, DailyTask.is_active_today, h.1, h.2]
  · rcases Decidable.not_and_iff_or_not.mp h with h | h
    · simp [DailyTask.complete_today, DailyTask.is_active_today, h]
    · have hmem : todayStr ∈ t.completed_dates := Decidable.of_not_not h
      exact complete_today_of_mem t todayStr wd hmem
  · have e1 : (t.complete_today todayStr wd).completed_dates =
        t.completed_dates ++ [todayStr] := by
      simp [DailyTask.complete_today, DailyTask.is_active_today, h.1, h.2]
    have hmem : todayStr ∈ (t.complete_today todayStr wd).completed_dates := by
      rw [e1]; simp
    have e2 : (t.complete_today todayStr wd).complete_today todayStr wd =
        t.complete_today todayStr wd :=
      complete_today_of_mem _ todayStr wd hmem
    rw [e2, e1]
    simp [List.count_append, List.count_eq_zero.mpr h.2]
  · by_cases hcond : todayStr ∉ t.completed_dates ∧
        t.is_active_today wd = true
    · have e : (t.complete_today todayStr wd).completed_dates =
          t.completed_dates ++ [todayStr] := by
        simp [DailyTask.complete_today, hcond.1, hcond.2]
      rw [e]
      simp [List.count_append, List.count_eq_zero.mpr hcond.1]
    · simp only [DailyTask.complete_today, if_neg hcond]
      exact h

theorem complete_today_spec_witness :
    ((0 : Int) ∈ [(0 : Int), 2, 4] ∧
      "2025-01-06" ∉ ([] : List String)) ∧
    ((DailyTask.mk "Exercise" [0, 2, 4] []).complete_today "2025-01-06"
        0).completed_dates = [] ++ ["2025-01-06"] ∧
    (((DailyTask.mk "Exercise" [0, 2, 4] []).complete_today "2025-01-06"
          0).complete_today "2025-01-06" 0).completed_dates.count
        "2025-01-06" = 1 := by
  have h := complete_today_spec (DailyTask.mk "Exercise" [0, 2, 4] [])
    "2025-01-06" 0
  have hc : (0 : Int) ∈ [(0 : Int), 2, 4] ∧
      "2025-01-06" ∉ ([] : List String) := by decide
  exact ⟨hc, h.1 hc, h.2.2.1 hc⟩

/-- Claim C7: `get_goals_stats` reports the collection size, the number of
completed goals, the number of failed goals, `in_progress` as their signed
difference, and `completion_rate` as completed over total times 100, which is
0 on the empty collection (no division-by-zero fault). -/
theorem get_goals_stats_spec (goals : List Goal) :
    (GoalManager.get_goals_stats goals).total = goals.length ∧
    (GoalManager.get_goals_stats goals).completed =
      (goals.filter (fun g => g.completed = true)).length ∧
    (GoalManager.get_goals_stats goals).failed =
      (goals.filter (fun g => g.failed = true)).length ∧
    (GoalManager.get_goals_stats goals).in_progress =
      (goals.length : Int) -
        ((GoalManager.get_goals_stats goals).completed : Int) -
        ((GoalManager.get_goals_stats goals).failed : Int) ∧
    (GoalManager.get_goals_stats goals).completion_rate =
      ((GoalManager.get_goals_stats goals).completed : ℚ) /
        ((GoalManager.get_goals_stats goals).total : ℚ) * 100 ∧
    (goals = [] → (GoalManager.get_goals_stats goals).total = 0 ∧
      (GoalManager.get_goals_stats goals).completion_rate = 0) := by
  have hfun : ∀ f : Goal → Bool,
      (fun g => decide (f g = true)) = f := fun f =>
    funext fun g => by cases f g <;> rfl
  refine ⟨rfl, by simp [GoalManager.get_goals_stats, hfun], ?_, rfl, ?_, ?_⟩
  · simp [GoalManager.get_goals_stats, hfun]
  · cases goals with
    | nil => simp [GoalManager.get_goals_stats]
    | cons a l =>
      simp only [GoalManager.get_goals_stats]
      rw [if_pos (by simp)]
  · intro h
    subst h
    simp [GoalManager.get_goals_stats]

theorem get_goals_stats_spec_witness :
    (GoalManager.get_goals_stats []).total = 0 ∧
    (GoalManager.get_goals_stats []).completion_rate = 0 ∧
    (GoalManager.get_goals_stats []).in_progress = 0 := by
  have h := get_goals_stats_spec []
  refine ⟨(h.2.2.2.2.2 rfl).1, (h.2.2.2.2.2 rfl).2, ?_⟩
  have h4 := h.2.2.2.1
  simpa [(h.2.2.2.2.2 rfl).1] using h4

/-- Claim C8: `completion_rate(weeks)` equals the number of logged dates over
the number of scheduled occurrences (`|daysOfWeek| * weeks`) times 100 in
exact rational arithmetic, and is 0 when `daysOfWeek` is empty - with no
division-by-zero fault (the rational convention `x / 0 = 0` matches the
source's explicit guard returning 0 whenever `|daysOfWeek| * weeks = 0`). -/
theorem completion_rate_spec (t : DailyTask) (weeks : Nat) :
    t.completion_rate weeks =
      (t.completed_dates.length : ℚ) /
        ((t.days_of_week.length : ℚ) * (weeks : ℚ)) * 100 ∧
    (t.days_of_week = [] → t.completion_rate weeks = 0) := by
  constructor
  · simp only [DailyTask.completion_rate]
    by_cases h : t.days_of_week.length * weeks = 0
    · rw [if_pos h]
      have : (t.days_of_week.length : ℚ) * (weeks : ℚ) = 0 := by
        exact_mod_cast congrArg (Nat.cast : Nat → ℚ) h
      rw [this, div_zero, zero_mul]
    · rw [if_neg h]
      push_cast
      ring
  · intro h
    simp [DailyTask.completion_rate, h]

theorem completion_rate_spec_witness :
    (DailyTask.mk "Exercise" [] ["2025-01-06"]).completion_rate 4 = 0 ∧
    (DailyTask.mk "Exercise" [0, 2, 4] ["2025-01-06"]).completion_rate 4 =
      ((1 : ℚ) / ((3 : ℚ) * (4 : ℚ))) * 100 := by
  constructor
  · exact (completion_rate_spec (DailyTask.mk "Exercise" [] ["2025-01-06"])
      4).2 rfl
  · have h := (completion_rate_spec
      (DailyTask.mk "Exercise" [0, 2, 4] ["2025-01-06"]) 4).1
    simpa using h

/-! ### Serialisation round-trip -/

lemma fromiso_iso (t : Datetime) (h : t.valid) :
    Datetime.fromisoformat t.isoformat = t := by
  obtain ⟨y, mo, d, hh, mi, s, us⟩ := t
  obtain ⟨h1, h2, h3, h4, h5, h6, h7, h8, h9, h10⟩ := h
  simp only [Datetime.isoformat, encNum, digitsBE, List.map_append, List.map,
    List.nil_append, List.cons_append, List.append_nil, List.append_assoc]
  by_cases hus : us = 0
  · rw [if_pos hus]
    simp only [Datetime.fromisoformat]
    refine Datetime.mk.injEq .. |>.mpr ?_
    refine ⟨?_, ?_, ?_, ?_, ?_, ?_, ?_⟩ <;> simp_all <;> omega
  · rw [if_neg hus]
    simp only [Datetime.fromisoformat]
    refine Datetime.mk.injEq .. |>.mpr ?_
    refine ⟨?_, ?_, ?_, ?_, ?_, ?_, ?_⟩ <;> simp_all <;> omega

lemma goal_from_to (g : Goal) (h : g.created_at.valid) :
    Goal.from_dict (Goal.to_dict g) = g := by
  simp [Goal.from_dict, Goal.to_dict, fromiso_iso _ h]

lemma map_goal_from_to :
    ∀ l : List Goal, (∀ g ∈ l, g.created_at.valid) →
      (l.map Goal.to_dict).map Goal.from_dict = l := by
  intro l
  induction l with
  | nil => intro _; rfl
  | cons a r ih =>
    intro h
    simp only [List.map_cons]
    rw [goal_from_to a (h a (List.mem_cons_self a r)),
      ih (fun g hg => h g (List.mem_cons_of_mem a hg))]

lemma task_from_to (t : DailyTask) :
    DailyTask.from_dict (DailyTask.to_dict t) = t := rfl

/-- Claim C4: loading the snapshot written by `save_data` reproduces the
collections field for field, for any goals whose `created_at` is a datetime
Python's constructor accepts - in particular the ISO timestamp keeps
microsecond precision, so the recomputed deadlines agree. -/
theorem save_load_roundtrip (goals : List Goal) (daily_tasks : List DailyTask)
    (h : ∀ g ∈ goals, g.created_at.valid) :
    DataManager.load_data (some (DataManager.save_data goals daily_tasks)) =
      (goals, daily_tasks) := by
  simp only [DataManager.load_data, DataManager.save_data]
  refine Prod.mk.injEq .. |>.mpr ⟨map_goal_from_to goals h, ?_⟩
  have hcomp : DailyTask.from_dict ∘ DailyTask.to_dict = id :=
    funext task_from_to
  rw [List.map_map, hcomp, List.map_id]

theorem save_load_roundtrip_witness :
    (∀ g ∈ [Goal.construct "ship" 3 ⟨2024, 5, 17, 10, 30, 0, 123456⟩,
        Goal.mk "done" 0 ⟨1999, 12, 31, 23, 59, 59, 0⟩ true false],
      Datetime.valid g.created_at) ∧
    DataManager.load_data
        (some (DataManager.save_data
          [Goal.construct "ship" 3 ⟨2024, 5, 17, 10, 30, 0, 123456⟩,
            Goal.mk "done" 0 ⟨1999, 12, 31, 23, 59, 59, 0⟩ true false]
          [DailyTask.mk "Exercise" [0, 2, 4] ["2024-05-13"]])) =
      ([Goal.construct "ship" 3 ⟨2024, 5, 17, 10, 30, 0, 123456⟩,
          Goal.mk "done" 0 ⟨1999, 12, 31, 23, 59, 59, 0⟩ true false],
        [DailyTask.mk "Exercise" [0, 2, 4] ["2024-05-13"]]) :=
  ⟨by decide,
    save_load_roundtrip
      [Goal.construct "ship" 3 ⟨2024, 5, 17, 10, 30, 0, 123456⟩,
        Goal.mk "done" 0 ⟨1999, 12, 31, 23, 59, 59, 0⟩ true false]
      [DailyTask.mk "Exercise" [0, 2, 4] ["2024-05-13"]] (by decide)⟩

/-! ### Tracker operations -/

/-- Claim C5, counterexample: `add_goal` with an empty name and a negative
deadline does not fail - it constructs the goal, appends it and persists,
so the claimed `InvalidArgument` rejection does not exist in the code. -/
theorem add_goal_accepts_invalid :
    GoalManager.add_goal (AppState.mk [] [] none) "" (-1)
        ⟨2024, 1, 1, 0, 0, 0, 0⟩ =
      AppState.mk [Goal.construct "" (-1) ⟨2024, 1, 1, 0, 0, 0, 0⟩] []
        (some (DataManager.save_data
          [Goal.construct "" (-1) ⟨2024, 1, 1, 0, 0, 0, 0⟩] [])) := rfl

/-- Claim C5, amended: `add_goal(name, deadlineDays)` performs no validation
at all - for every name (empty included) and every `deadlineDays` (negative
included) it constructs a Goal, appends it to the goals collection, and
persists the updated collections. -/
theorem add_goal_spec (s : AppState) (name : String) (dd : Int)
    (now : Datetime) :
    (GoalManager.add_goal s name dd now).goals =
      s.goals ++ [Goal.construct name dd now] ∧
    (GoalManager.add_goal s name dd now).daily_tasks = s.daily_tasks ∧
    (GoalManager.add_goal s name dd now).disk =
      some (DataManager.save_data (s.goals ++ [Goal.construct name dd now])
        s.daily_tasks) :=
  ⟨rfl, rfl, rfl⟩

lemma removeFirst_eq_erase :
    ∀ (l : List Goal) (g : Goal), g ∈ l → removeFirst l g = some (l.erase g) := by
  intro l g
  induction l with
  | nil => intro h; cases h
  | cons x xs ih =>
    intro h
    by_cases hx : x = g
    · subst hx
      simp [removeFirst]
    · have hmem : g ∈ xs := by
        rcases List.mem_cons.mp h with h | h
        · exact absurd h.symm hx
        · exact h
      rw [List.erase_cons_tail (by simpa using hx)]
      simp [removeFirst, hx, ih hmem]

lemma removeFirst_of_not_mem :
    ∀ (l : List Goal) (g : Goal), g ∉ l → removeFirst l g = none := by
  intro l g
  induction l with
  | nil => intro _; rfl
  | cons x xs ih =>
    intro h
    have hx : ¬x = g := fun e => h (e ▸ List.mem_cons_self x xs)
    have hxs : g ∉ xs := fun e => h (List.mem_cons_of_mem x e)
    simp [removeFirst, hx, ih hxs]

/-- Claim C6: when the goal is present, `delete_goal` removes its first
occurrence from the collection and persists the shrunk collections; when it
is absent, `delete_goal` fails with `NotFound` (Python's `ValueError` from
`list.remove`) before any save, leaving the collection unchanged. -/
theorem delete_goal_spec (s : AppState) (g : Goal) :
    (g ∈ s.goals →
      GoalManager.delete_goal s g =
        Except.ok (AppState.mk (s.goals.erase g) s.daily_tasks
          (some (DataManager.save_data (s.goals.erase g) s.daily_tasks)))) ∧
    (g ∉ s.goals →
      GoalManager.delete_goal s g = Except.error DeleteError.notFound) := by
  constructor
  · intro h
    simp [GoalManager.delete_goal, removeFirst_eq_erase s.goals g h, saveState]
  · intro h
    simp [GoalManager.delete_goal, removeFirst_of_not_mem s.goals g h]

theorem delete_goal_spec_witness :
    Goal.construct "x" 1 ⟨2024, 1, 1, 0, 0, 0, 0⟩ ∈
      [Goal.construct "x" 1 ⟨2024, 1, 1, 0, 0, 0, 0⟩] ∧
    GoalManager.delete_goal
        (AppState.mk [Goal.construct "x" 1 ⟨2024, 1, 1, 0, 0, 0, 0⟩] [] none)
        (Goal.construct "x" 1 ⟨2024, 1, 1, 0, 0, 0, 0⟩) =
      Except.ok (AppState.mk
        ([Goal.construct "x" 1 ⟨2024, 1, 1, 0, 0, 0, 0⟩].erase
          (Goal.construct "x" 1 ⟨2024, 1, 1, 0, 0, 0, 0⟩)) []
        (some (DataManager.save_data
          ([Goal.construct "x" 1 ⟨2024, 1, 1, 0, 0, 0, 0⟩].erase
            (Goal.construct "x" 1 ⟨2024, 1, 1, 0, 0, 0, 0⟩)) []))) ∧
    GoalManager.delete_goal (AppState.mk [] [] none)
        (Goal.construct "x" 1 ⟨2024, 1, 1, 0, 0, 0, 0⟩) =
      Except.error DeleteError.notFound := by
  have hmem : Goal.construct "x" 1 ⟨2024, 1, 1, 0, 0, 0, 0⟩ ∈
      [Goal.construct "x" 1 ⟨2024, 1, 1, 0, 0, 0, 0⟩] := by decide
  refine ⟨hmem, ?_, ?_⟩
  · exact (delete_goal_spec
      (AppState.mk [Goal.construct "x" 1 ⟨2024, 1, 1, 0, 0, 0, 0⟩] [] none)
      (Goal.construct "x" 1 ⟨2024, 1, 1, 0, 0, 0, 0⟩)).1 hmem
  · exact (delete_goal_spec (AppState.mk [] [] none)
      (Goal.construct "x" 1 ⟨2024, 1, 1, 0, 0, 0, 0⟩)).2 (by decide)

/-- Claim C10: deserialisation enforces no state invariant - a dictionary
with both flags true yields a goal with `completed` and `failed` both true,
`load_data` accepts a snapshot containing it unchanged, and `get_goals_stats`
then reports a negative `in_progress` (total minus completed minus failed). -/
theorem from_dict_accepts_both_flags :
    (Goal.from_dict (GoalDict.mk "zombie" 7
        (Datetime.isoformat ⟨2024, 1, 1, 0, 0, 0, 0⟩) true true)).completed =
      true ∧
    (Goal.from_dict (GoalDict.mk "zombie" 7
        (Datetime.isoformat ⟨2024, 1, 1, 0, 0, 0, 0⟩) true true)).failed =
      true ∧
    DataManager.load_data (some (SaveData.mk
        [GoalDict.mk "zombie" 7
          (Datetime.isoformat ⟨2024, 1, 1, 0, 0, 0, 0⟩) true true] [])) =
      ([Goal.from_dict (GoalDict.mk "zombie" 7
          (Datetime.isoformat ⟨2024, 1, 1, 0, 0, 0, 0⟩) true true)], []) ∧
    (GoalManager.get_goals_stats
        [Goal.from_dict (GoalDict.mk "zombie" 7
          (Datetime.isoformat ⟨2024, 1, 1, 0, 0, 0, 0⟩) true true)]).in_progress =
      -1 ∧
    (GoalManager.get_goals_stats
        [Goal.from_dict (GoalDict.mk "zombie" 7
          (Datetime.isoformat ⟨2024, 1, 1, 0, 0, 0, 0⟩) true true)]).in_progress <
      0 := by
  refine ⟨rfl, rfl, rfl, by decide, by decide⟩
